import Mathlib

/-!
Verification development for the Supabase todo web application of the
HackWashU Databases Workshop repository.

The program is the client-side script `app.js` (the current revision, the
one documented by WORKSHOP_GUIDE.md and the repository instructions: it
contains `loadConfig`, `createTodoElement`, `toggleTodoComplete`,
`editTodo`, `deleteTodo`, the add-todo and delete-all-tasks listeners and
the `onAuthStateChange` callback).  An earlier revision of the same file
(without the delete-all handler, without input trimming and without the
"Error: " alert prefixes) also appears in the repository; where the two
revisions differ, the definitions below follow the current revision, and
the divergence is recorded with the corresponding theorem.

Modelling conventions:
* a JavaScript string handled character by character (the `.env` parser)
  is a `List Char`; elsewhere strings stay `String`;
* the remote `todos` table is a `List Todo`; a Supabase update / delete
  request filtered with `.eq` is the corresponding pointwise operation on
  that list;
* a fallible backend call is abstracted by an `Option String` error (or
  an `Except String` result): `none` means the call succeeded;
* each event handler becomes a pure function from its inputs (field
  contents, session user, abstracted backend outcome) to a record of the
  observable effects the handler produces (request issued, alert shown,
  input cleared, list refetch triggered).
-/

/-- One row of the remote `todos` table, with the columns
`id, created_at, task, is_complete, user_id` used by `app.js`
(`created_at` is the server-assigned creation timestamp, modelled as a
natural number so that larger means later). -/
structure Todo where
  id : Nat
  created_at : Nat
  task : String
  is_complete : Bool
  user_id : String
deriving DecidableEq, Repr

/-! ## JavaScript string primitives

The script uses `String.prototype.split` (only with the one-character
separators `"\n"` and `"="`), `Array.prototype.join` and
`String.prototype.trim`.  They are modelled here on `List Char` by
structural recursion, with a `String` wrapper for `trim`. -/

/-- `s.split(sep)` for a one-character separator: splits at every
occurrence; `"".split(sep)` is `[""]`. -/
def jsSplit (sep : Char) : List Char → List (List Char)
  | [] => [[]]
  | c :: rest =>
      if c = sep then
        [] :: jsSplit sep rest
      else
        match jsSplit sep rest with
        | [] => [[c]]
        | g :: gs => (c :: g) :: gs

/-- The groups of `jsSplit sep l` after the first one: empty when `l`
has no separator, otherwise the split of the part after the first
separator.  Used to describe `jsSplit` by its first group. -/
def jsSplitTail (sep : Char) (l : List Char) : List (List Char) :=
  match l.dropWhile (fun c => !(c == sep)) with
  | [] => []
  | _ :: r => jsSplit sep r

/-- `parts.join(sep)` for a one-character separator. -/
def jsJoin (sep : Char) : List (List Char) → List Char
  | [] => []
  | [g] => g
  | g :: g₂ :: gs => g ++ sep :: jsJoin sep (g₂ :: gs)

/-- `s.trim()`: strips whitespace from both ends. -/
def jsTrim (s : List Char) : List Char :=
  ((s.dropWhile Char.isWhitespace).reverse.dropWhile Char.isWhitespace).reverse

/-- `s.trim()` on a `String`. -/
def jsTrimStr (s : String) : String :=
  { data := jsTrim s.data }

/-! ## List (fetchTodos) -/

/-- The query parameters of the select issued by `fetchTodos`:
`supabaseClient.from("todos").select("*").order("created_at", { ascending: false })`. -/
structure ListRequest where
  table : String
  orderColumn : String
  ascending : Bool
deriving DecidableEq, Repr

/-- The request `fetchTodos` sends: all rows, ordered by `created_at`
with `ascending: false`. -/
def fetchTodosRequest : ListRequest :=
  { table := "todos", orderColumn := "created_at", ascending := false }

/-- `const incompleteTodos = data.filter((todo) => !todo.is_complete);` -/
def incompleteTodos (data : List Todo) : List Todo :=
  data.filter (fun todo => !todo.is_complete)

/-- `const completedTodos = data.filter((todo) => todo.is_complete);` -/
def completedTodos (data : List Todo) : List Todo :=
  data.filter (fun todo => todo.is_complete)

/-- The rendered page state touched by the script: visibility of the two
views, the identity banner text, and the items currently rendered in the
active (`todo-list`) and completed (`completed-list`) lists. -/
structure UIState where
  authViewVisible : Bool
  appViewVisible : Bool
  userEmailText : String
  todoListItems : List Todo
  completedListItems : List Todo
deriving DecidableEq, Repr

/-- `fetchTodos` as a transformer of the rendered state.  On a fetch
error it logs and returns, leaving the page untouched; on success it
clears both lists and rebuilds them from the filtered data. -/
def fetchTodos (result : Except String (List Todo)) (ui : UIState) : UIState :=
  match result with
  | Except.error _ => ui
  | Except.ok data =>
      { ui with
        todoListItems := incompleteTodos data
        completedListItems := completedTodos data }

/-! ## Toggle-complete -/

/-- A Supabase `update({ is_complete: v }).eq("id", todoId)` on the
`todos` table: every row whose id matches gets its flag set to `v`. -/
def dbUpdateIsComplete (rows : List Todo) (todoId : Nat) (v : Bool) : List Todo :=
  rows.map (fun r => if r.id = todoId then { r with is_complete := v } else r)

/-- `toggleTodoComplete(todoId, isComplete)` sends
`update({ is_complete: !isComplete }).eq("id", todoId)`; this is the
resulting table.  (`isComplete` is the flag the row was rendered with.) -/
def toggleTodoComplete (rows : List Todo) (todoId : Nat) (isComplete : Bool) : List Todo :=
  dbUpdateIsComplete rows todoId (!isComplete)

/-! ## Edit (editTodo) -/

/-- Observable effects of one run of `editTodo(todoId, currentTask)`:
the `update({ task: ... }).eq("id", ...)` request it issues (if any),
whether `fetchTodos()` was re-run, and whether an alert was raised. -/
structure EditEffects where
  request : Option (Nat × String)
  listRefreshed : Bool
  alertShown : Bool
deriving DecidableEq, Repr

/-- `editTodo(todoId, currentTask)`: `prompt` returns `promptResult`
(`none` models cancel); the update runs only under
`newTask && newTask.trim() !== currentTask`, and it sends the trimmed
text; on backend error it alerts, otherwise it re-runs `fetchTodos`. -/
def editTodo (todoId : Nat) (currentTask : String)
    (promptResult : Option String) (updateError : Option String) : EditEffects :=
  match promptResult with
  | none => { request := none, listRefreshed := false, alertShown := false }
  | some newTask =>
      if newTask ≠ "" ∧ jsTrimStr newTask ≠ currentTask then
        match updateError with
        | some _ =>
            { request := some (todoId, jsTrimStr newTask)
              listRefreshed := false, alertShown := true }
        | none =>
            { request := some (todoId, jsTrimStr newTask)
              listRefreshed := true, alertShown := false }
      else
        { request := none, listRefreshed := false, alertShown := false }

/-! ## Create (add-todo-btn listener) -/

/-- The payload of the insert issued by the add-todo listener:
`insert({ task: task, user_id: user.id, is_complete: false })`. -/
structure InsertRequest where
  task : String
  user_id : String
  is_complete : Bool
deriving DecidableEq, Repr

/-- Observable effects of one click on `add-todo-btn`: the insert
request (if one was sent), the content of the `new-todo` input after the
handler ran, whether `fetchTodos()` was re-run, and whether an error or
validation message was surfaced via `alert`. -/
structure AddTodoEffects where
  request : Option InsertRequest
  inputValue : String
  listRefreshed : Bool
  alertShown : Bool
deriving DecidableEq, Repr

/-- The `add-todo-btn` click listener.  `inputValue` is the raw content
of the `new-todo` field, `user` the identity returned by
`auth.getUser()` (`none` when there is no active session), and
`insertError` the abstracted outcome of the insert. -/
def addTodoClick (inputValue : String) (user : Option String)
    (insertError : Option String) : AddTodoEffects :=
  let task := jsTrimStr inputValue
  if task = "" then
    { request := none, inputValue := inputValue
      listRefreshed := false, alertShown := true }
  else
    match user with
    | none =>
        { request := none, inputValue := inputValue
          listRefreshed := false, alertShown := true }
    | some uid =>
        let req : InsertRequest := { task := task, user_id := uid, is_complete := false }
        match insertError with
        | some _ =>
            { request := some req, inputValue := inputValue
              listRefreshed := false, alertShown := true }
        | none =>
            { request := some req, inputValue := ""
              listRefreshed := true, alertShown := false }

/-! ## Delete-all (delete-all-tasks-btn listener) -/

/-- Observable effects of one click on `delete-all-tasks-btn`: whether
the delete request was sent, the resulting `todos` table, whether
`fetchTodos()` was re-run, and whether an alert reported a problem. -/
structure DeleteAllEffects where
  requestSent : Bool
  table : List Todo
  listRefreshed : Bool
  errorAlertShown : Bool
deriving DecidableEq, Repr

/-- The `delete-all-tasks-btn` click listener: it returns unless the
user confirms, alerts when `auth.getUser()` yields no user, and
otherwise sends `delete().eq("user_id", user.id)`; on success it alerts
a summary and re-runs `fetchTodos`. -/
def deleteAllClick (confirmed : Bool) (user : Option String)
    (deleteError : Option String) (rows : List Todo) : DeleteAllEffects :=
  if confirmed = false then
    { requestSent := false, table := rows
      listRefreshed := false, errorAlertShown := false }
  else
    match user with
    | none =>
        { requestSent := false, table := rows
          listRefreshed := false, errorAlertShown := true }
    | some uid =>
        match deleteError with
        | some _ =>
            { requestSent := true, table := rows
              listRefreshed := false, errorAlertShown := true }
        | none =>
            { requestSent := true
              table := rows.filter (fun r => !(r.user_id == uid))
              listRefreshed := true, errorAlertShown := false }

/-! ## Sign-up / sign-in listeners -/

/-- Observable effects of the `signup-btn` and `login-btn` listeners:
the text shown by `alert` (if any) and whether the handler itself
requested a login. -/
structure AuthHandlerEffects where
  alertText : Option String
  loginRequested : Bool
deriving DecidableEq, Repr

/-- The `signup-btn` listener: `auth.signUp({ email, password })`
returned `backendError`; on error it alerts `"Error: " + error.message`,
on success it alerts the confirmation notice and performs no login. -/
def signupClick (backendError : Option String) : AuthHandlerEffects :=
  match backendError with
  | some msg => { alertText := some ("Error: " ++ msg), loginRequested := false }
  | none =>
      { alertText := some "Success! Check your email for a confirmation link."
        loginRequested := false }

/-- The `login-btn` listener: `auth.signInWithPassword` returned
`backendError`; on error it alerts `"Error: " + error.message`, on
success it shows nothing (the session observer reacts instead).  The
sign-in request itself is the one user action the handler performs. -/
def loginClick (backendError : Option String) : AuthHandlerEffects :=
  match backendError with
  | some msg => { alertText := some ("Error: " ++ msg), loginRequested := true }
  | none => { alertText := none, loginRequested := true }

/-! ## Session observer (onAuthStateChange) -/

/-- The `user` object carried by a session. -/
structure SessionUser where
  email : String
deriving DecidableEq, Repr

/-- A backend session; `user` may be absent. -/
structure Session where
  user : Option SessionUser
deriving DecidableEq, Repr

/-- The guard `session && session.user` of the observer callback. -/
def sessionUser : Option Session → Option SessionUser
  | none => none
  | some s => s.user

/-- The `onAuthStateChange` callback.  With a present session user it
hides the credential view, shows the task view, displays the identity
and runs `fetchTodos` (whose outcome is `fetchResult`); otherwise it
shows the credential view, hides the task view and clears both rendered
lists. -/
def onAuthStateChange (session : Option Session)
    (fetchResult : Except String (List Todo)) (ui : UIState) : UIState :=
  match sessionUser session with
  | some u =>
      fetchTodos fetchResult
        { ui with
          authViewVisible := false
          appViewVisible := true
          userEmailText := u.email }
  | none =>
      { ui with
        authViewVisible := true
        appViewVisible := false
        todoListItems := []
        completedListItems := [] }

/-! ## Configuration (loadConfig)

The `.env` parser works character by character, so here the fetched
text is a `List Char`. -/

/-- One iteration of the `forEach` in `loadConfig`: a line is retained
when `line.trim()` is truthy and the line does not start with `"#"`; a
retained line is destructured as `const [key, ...values] = line.split("=")`
and contributes `config[key.trim()] = values.join("=").trim()`. -/
def parseEnvLine (line : List Char) : Option (List Char × List Char) :=
  if jsTrim line ≠ [] ∧ line.head? ≠ some '#' then
    match jsSplit '=' line with
    | [] => none
    | key :: values => some (jsTrim key, jsTrim (jsJoin '=' values))
  else
    none

/-- `loadConfig`: split the fetched `.env` text on `"\n"` and collect the
key/value pairs of the retained lines (in file order). -/
def loadConfig (text : List Char) : List (List Char × List Char) :=
  (jsSplit '\n' text).filterMap parseEnvLine

/-- Reading `config[k]` from the object built by `loadConfig`: each
assignment overwrites earlier ones, so the last pair with key `k` wins;
an absent key reads as `undefined` (`none`). -/
def envGet (config : List (List Char × List Char)) (k : List Char) : Option (List Char) :=
  config.foldl (fun acc p => if p.1 = k then some p.2 else acc) none

/-- The two values the startup code hands to
`supabase.createClient(SUPABASE_URL, SUPABASE_ANON_KEY)`. -/
structure StartupClient where
  url : Option (List Char)
  key : Option (List Char)
deriving DecidableEq, Repr

/-- The startup sequence of the script: load the configuration, read
`config.SUPABASE_URL` and `config.SUPABASE_ANON_KEY`, and pass both to
the client constructor.  The source performs no validation of either
value: this function is total and there is no error result. -/
def startupClient (text : List Char) : StartupClient :=
  let config := loadConfig text
  { url := envGet config "SUPABASE_URL".data
    key := envGet config "SUPABASE_ANON_KEY".data }

/-! ## Sample data -/

/-- Five rows ordered by `created_at` descending, three incomplete and
two completed. -/
def sampleListData : List Todo :=
  [ { id := 1, created_at := 50, task := "t1", is_complete := false, user_id := "u" }
  , { id := 2, created_at := 40, task := "t2", is_complete := true, user_id := "u" }
  , { id := 3, created_at := 30, task := "t3", is_complete := false, user_id := "u" }
  , { id := 4, created_at := 20, task := "t4", is_complete := true, user_id := "u" }
  , { id := 5, created_at := 10, task := "t5", is_complete := false, user_id := "u" } ]

/-- Two rows, one owned by user `"A"` and one owned by user `"B"`. -/
def sampleTwoUsers : List Todo :=
  [ { id := 1, created_at := 10, task := "a", is_complete := false, user_id := "A" }
  , { id := 2, created_at := 11, task := "b", is_complete := false, user_id := "B" } ]

/-! ## Theorems -/

/-- C3: `toggleTodoComplete` flips the completion flag of the rows with
the given id (every such row carries `!isComplete` afterwards), and when
the passed flag matches the stored one — as it does, since the UI passes
the flag the row was fetched with — toggling twice restores the table
exactly. -/
theorem toggle_flips_flag_and_is_involution (rows : List Todo) (todoId : Nat) (b : Bool) :
    (∀ r ∈ toggleTodoComplete rows todoId b, r.id = todoId → r.is_complete = !b)
    ∧ ((∀ r ∈ rows, r.id = todoId → r.is_complete = b) →
        toggleTodoComplete (toggleTodoComplete rows todoId b) todoId (!b) = rows) := by
  constructor
  · intro r hr hid
    simp only [toggleTodoComplete, dbUpdateIsComplete, List.mem_map] at hr
    obtain ⟨s, hs, rfl⟩ := hr
    by_cases h : s.id = todoId
    · simp [h]
    · simp only [if_neg h] at hid
      exact absurd hid h
  · intro hall
    simp only [toggleTodoComplete, dbUpdateIsComplete, List.map_map]
    induction rows with
    | nil => rfl
    | cons a t ih =>
        have ha := hall a (by simp)
        have ht : ∀ r ∈ t, r.id = todoId → r.is_complete = b := by
          intro r hr
          exact hall r (by simp [hr])
        simp only [List.map_cons, Function.comp_apply]
        congr 1
        · by_cases h : a.id = todoId
          · simp only [if_pos h, Bool.not_not]
            rw [← ha h]
          · rw [if_neg h, if_neg h]
        · exact ih ht

/-- Witness for C3: a single row with `is_complete := false` toggles to
`true` and a second toggle restores the original table. -/
theorem toggle_involution_witness :
    (∀ r ∈ toggleTodoComplete
        [{ id := 1, created_at := 0, task := "t", is_complete := false, user_id := "u" }] 1 false,
      r.id = 1 → r.is_complete = !false)
    ∧ toggleTodoComplete
        (toggleTodoComplete
          [{ id := 1, created_at := 0, task := "t", is_complete := false, user_id := "u" }] 1 false)
        1 (!false)
      = [{ id := 1, created_at := 0, task := "t", is_complete := false, user_id := "u" }] :=
  have h := toggle_flips_flag_and_is_involution
    [{ id := 1, created_at := 0, task := "t", is_complete := false, user_id := "u" }] 1 false
  ⟨h.1, h.2 (by decide)⟩

/-- C9: a failed fetch leaves the rendered state exactly as it was; the
two lists are cleared and rebuilt from the partitioned data only on a
successful fetch. -/
theorem fetch_error_leaves_render_unchanged (e : String) (data : List Todo) (ui : UIState) :
    fetchTodos (Except.error e) ui = ui
    ∧ fetchTodos (Except.ok data) ui =
        { ui with
          todoListItems := incompleteTodos data
          completedListItems := completedTodos data } :=
  ⟨rfl, rfl⟩

/-- C5: on every transition to the unauthenticated state (no session, or
a session without a user) the observer shows the credential view, hides
the task view, and empties both rendered lists. -/
theorem unauthenticated_transition_clears_ui (session : Option Session)
    (fetchResult : Except String (List Todo)) (ui : UIState)
    (h : sessionUser session = none) :
    onAuthStateChange session fetchResult ui =
      { ui with
        authViewVisible := true
        appViewVisible := false
        todoListItems := []
        completedListItems := [] } := by
  unfold onAuthStateChange
  rw [h]

/-- Witness for C5: logging out of a state with a rendered completed
item clears both lists and swaps the views. -/
theorem unauthenticated_transition_witness :
    onAuthStateChange none (Except.ok [])
      { authViewVisible := false, appViewVisible := true, userEmailText := "a@b.co"
        todoListItems := []
        completedListItems :=
          [{ id := 1, created_at := 0, task := "t", is_complete := true, user_id := "u" }] }
    = { authViewVisible := true, appViewVisible := false, userEmailText := "a@b.co"
        todoListItems := [], completedListItems := [] } :=
  unauthenticated_transition_clears_ui none (Except.ok []) _ rfl

/-- C6 counterexample: the sign-up handler does not surface the backend
message unmodified — it alerts `"Error: " + error.message`, so for the
backend message `"User already registered"` the displayed text differs
from the message. -/
theorem auth_error_not_verbatim_counterexample :
    (signupClick (some "User already registered")).alertText
      ≠ some "User already registered" := by
  decide

/-- C6 (amended): every failing sign-up or sign-in alert is the backend
message with the fixed prefix `"Error: "` prepended; on sign-up success
the user is told to check their email for a confirmation link and the
handler performs no login. -/
theorem auth_error_surfaced_with_prefix (msg : String) :
    (signupClick (some msg)).alertText = some ("Error: " ++ msg)
    ∧ (loginClick (some msg)).alertText = some ("Error: " ++ msg)
    ∧ (signupClick (some msg)).loginRequested = false
    ∧ (signupClick none).alertText =
        some "Success! Check your email for a confirmation link."
    ∧ (signupClick none).loginRequested = false :=
  ⟨rfl, rfl, rfl, rfl, rfl⟩

/-- C1: the add-todo listener sends an insert only when the trimmed
input is non-empty and a session user is present; the insert it then
sends is exactly `{ task, user_id, is_complete := false }`; on success
it clears the input and re-runs the list; with no session, or on a
failed insert, no list refresh happens and a message is surfaced. -/
theorem create_guard_payload_and_effects (v : String) (u : Option String)
    (e : Option String) :
    ((addTodoClick v u e).request.isSome → jsTrimStr v ≠ "" ∧ u.isSome)
    ∧ (∀ uid, jsTrimStr v ≠ "" → u = some uid →
        (addTodoClick v u e).request =
          some { task := jsTrimStr v, user_id := uid, is_complete := false })
    ∧ (jsTrimStr v ≠ "" → u.isSome → e = none →
        (addTodoClick v u e).inputValue = ""
        ∧ (addTodoClick v u e).listRefreshed = true)
    ∧ (u = none →
        (addTodoClick v u e).request = none
        ∧ (addTodoClick v u e).listRefreshed = false
        ∧ (addTodoClick v u e).alertShown = true)
    ∧ (e.isSome →
        (addTodoClick v u e).listRefreshed = false
        ∧ (addTodoClick v u e).alertShown = true) := by
  by_cases hv : jsTrimStr v = "" <;> cases u <;> cases e <;>
    simp [addTodoClick, hv]

/-- Witness for C1: input `"milk"` with an active user and a successful
insert yields exactly that payload, a cleared input and a refresh. -/
theorem create_guard_witness :
    (jsTrimStr "milk" ≠ "")
    ∧ (addTodoClick "milk" (some "user-1") none).request =
        some { task := jsTrimStr "milk", user_id := "user-1", is_complete := false }
    ∧ (addTodoClick "milk" (some "user-1") none).inputValue = ""
    ∧ (addTodoClick "milk" (some "user-1") none).listRefreshed = true :=
  have h := create_guard_payload_and_effects "milk" (some "user-1") none
  have hv : jsTrimStr "milk" ≠ "" := by decide
  ⟨hv, h.2.1 "user-1" hv rfl, (h.2.2.1 hv (by decide) rfl).1, (h.2.2.1 hv (by decide) rfl).2⟩

/-- Filtering a list with a predicate and with its negation splits its
length exactly. -/
theorem length_filter_not_add_length_filter {α : Type} (p : α → Bool) (l : List α) :
    (l.filter (fun a => !p a)).length + (l.filter p).length = l.length := by
  induction l with
  | nil => rfl
  | cons a t ih => cases h : p a <;> simp [List.filter_cons, h] <;> omega

/-- C2: the list request asks for all rows ordered by `created_at`
descending; the client partitions the fetched rows by the completion
flag, every fetched row lands in exactly one of the two rendered lists,
and — the fetched rows being in requested order — the completed subset
is ordered by creation time descending. -/
theorem list_partition_complete (data : List Todo)
    (hsorted : List.Sorted (fun a b : Todo => b.created_at ≤ a.created_at) data) :
    fetchTodosRequest.orderColumn = "created_at"
    ∧ fetchTodosRequest.ascending = false
    ∧ (∀ t ∈ data,
        (t ∈ incompleteTodos data ∧ t ∉ completedTodos data)
        ∨ (t ∉ incompleteTodos data ∧ t ∈ completedTodos data))
    ∧ (incompleteTodos data).length + (completedTodos data).length = data.length
    ∧ List.Sorted (fun a b : Todo => b.created_at ≤ a.created_at)
        (completedTodos data) := by
  refine ⟨rfl, rfl, ?_, ?_, ?_⟩
  · intro t ht
    by_cases hc : t.is_complete
    · right
      simp [incompleteTodos, completedTodos, List.mem_filter, ht, hc]
    · left
      simp [incompleteTodos, completedTodos, List.mem_filter, ht, hc]
  · exact length_filter_not_add_length_filter (fun t => t.is_complete) data
  · exact hsorted.filter _

/-- Witness for C2: three incomplete and two completed rows, fetched in
descending creation order, render as exactly three and two items, with
the completed ones still in descending creation order. -/
theorem list_partition_witness :
    (incompleteTodos sampleListData).length = 3
    ∧ (completedTodos sampleListData).length = 2
    ∧ (incompleteTodos sampleListData).length + (completedTodos sampleListData).length
        = sampleListData.length
    ∧ List.Sorted (fun a b : Todo => b.created_at ≤ a.created_at)
        (completedTodos sampleListData) :=
  have h := list_partition_complete sampleListData (by decide)
  ⟨by decide, by decide, h.2.2.2.1, h.2.2.2.2⟩

/-- C4: the delete-all listener does nothing without confirmation; once
confirmed with an active user and a successful request, exactly the rows
owned by that user are removed (a row survives iff its owner differs),
the list is refetched, and any other user's rows are untouched. -/
theorem delete_all_confirmed_scoped_to_owner (confirmed : Bool)
    (user : Option String) (err : Option String) (rows : List Todo) :
    (confirmed = false →
      deleteAllClick confirmed user err rows =
        { requestSent := false, table := rows
          listRefreshed := false, errorAlertShown := false })
    ∧ (∀ uid, confirmed = true → user = some uid → err = none →
        (∀ r ∈ rows,
          r ∈ (deleteAllClick confirmed user err rows).table ↔ ¬ r.user_id = uid)
        ∧ (deleteAllClick confirmed user err rows).listRefreshed = true
        ∧ ∀ uidB, ¬ uidB = uid →
            (deleteAllClick confirmed user err rows).table.filter
                (fun r => r.user_id == uidB)
              = rows.filter (fun r => r.user_id == uidB)) := by
  constructor
  · intro hc
    simp [deleteAllClick, hc]
  · rintro uid hc rfl rfl
    subst hc
    refine ⟨?_, rfl, ?_⟩
    · intro r hr
      simp [deleteAllClick, List.mem_filter, hr]
    · intro uidB hB
      simp only [deleteAllClick]
      rw [if_neg (by decide : ¬ (true = false))]
      simp only [List.filter_filter]
      apply List.filter_congr
      intro r _
      by_cases hq : r.user_id = uidB
      · have : ¬ r.user_id = uid := by
          rw [hq]; exact hB
        simp [hq, this, hB]
      · simp [hq]

/-- Witness for C4: users `"A"` and `"B"` own one row each; after `"A"`
confirms delete-all, the rows visible to `"B"` are unchanged and number
exactly one. -/
theorem delete_all_two_users_witness :
    (deleteAllClick true (some "A") none sampleTwoUsers).table.filter
        (fun r => r.user_id == "B")
      = sampleTwoUsers.filter (fun r => r.user_id == "B")
    ∧ (sampleTwoUsers.filter (fun r => r.user_id == "B")).length = 1 :=
  have h := delete_all_confirmed_scoped_to_owner true (some "A") none sampleTwoUsers
  ⟨(h.2 "A" rfl rfl rfl).2.2 "B" (by decide), by decide⟩

/-- C8 counterexample: with current text `"abc"`, the entered text
`" abc "` is non-empty and differs from the current text, yet `editTodo`
sends no update, because it compares the trimmed entry `"abc"` with the
current text. -/
theorem edit_untrimmed_difference_counterexample :
    (" abc " ≠ "" ∧ " abc " ≠ "abc")
    ∧ (editTodo 1 "abc" (some " abc ") none).request = none :=
  ⟨⟨by decide, by decide⟩, by decide⟩

/-- C8 (amended): the edit handler sends the update — carrying the
trimmed entered text, by id — exactly when the prompt was not cancelled,
the entered text is non-empty and its trimmed form differs from the
current text; on cancel or when the guard fails nothing happens at all,
and on a successful update the list is refetched. -/
theorem edit_sends_trimmed_update_iff (todoId : Nat) (cur : String)
    (p : Option String) (e : Option String) :
    ((editTodo todoId cur p e).request.isSome
      ↔ ∃ nt, p = some nt ∧ nt ≠ "" ∧ jsTrimStr nt ≠ cur)
    ∧ (∀ nt, p = some nt → nt ≠ "" → jsTrimStr nt ≠ cur →
        (editTodo todoId cur p e).request = some (todoId, jsTrimStr nt))
    ∧ (p = none →
        editTodo todoId cur p e =
          { request := none, listRefreshed := false, alertShown := false })
    ∧ (∀ nt, p = some nt → ¬ (nt ≠ "" ∧ jsTrimStr nt ≠ cur) →
        editTodo todoId cur p e =
          { request := none, listRefreshed := false, alertShown := false })
    ∧ ((editTodo todoId cur p e).request.isSome → e = none →
        (editTodo todoId cur p e).listRefreshed = true) := by
  cases p with
  | none => simp [editTodo]
  | some nt =>
      by_cases hg : nt ≠ "" ∧ jsTrimStr nt ≠ cur <;> cases e <;>
        simp [editTodo, hg] <;> tauto

/-- Witness for C8 (amended): entering `"new"` over current text `"old"`
sends the update `(2, "new")` and refreshes the list. -/
theorem edit_sends_update_witness :
    ("new" ≠ "" ∧ jsTrimStr "new" ≠ "old")
    ∧ (editTodo 2 "old" (some "new") none).request = some (2, jsTrimStr "new")
    ∧ (editTodo 2 "old" (some "new") none).listRefreshed = true :=
  have h := edit_sends_trimmed_update_iff 2 "old" (some "new") none
  have hreq : (editTodo 2 "old" (some "new") none).request
      = some (2, jsTrimStr "new") :=
    h.2.1 "new" rfl (by decide) (by decide)
  ⟨⟨by decide, by decide⟩, hreq,
    h.2.2.2.2 (by rw [hreq]; exact rfl) rfl⟩

/-- C7: the startup performs no configuration check of its own — with an
empty `.env` it reads both parameters as `undefined` and still reaches
the client-constructor call, and with malformed entries (lines without
`"="`) it proceeds with empty-string values; no fail-fast path exists in
the script. -/
theorem startup_proceeds_with_absent_config :
    startupClient [] = { url := none, key := none }
    ∧ startupClient "SUPABASE_URL\nSUPABASE_ANON_KEY".data
        = { url := some [], key := some [] } := by
  constructor <;> decide

/-- `jsSplit` never yields an empty group list. -/
theorem jsSplit_ne_nil (sep : Char) (l : List Char) : jsSplit sep l ≠ [] := by
  cases l with
  | nil => simp [jsSplit]
  | cons c rest =>
      simp only [jsSplit]
      by_cases h : c = sep
      · simp [h]
      · simp only [if_neg h]
        cases jsSplit sep rest <;> simp

/-- `jsSplit` described by its first group: everything before the first
separator, followed by the split of the remainder. -/
theorem jsSplit_eq_head_cons (sep : Char) (l : List Char) :
    jsSplit sep l = l.takeWhile (fun c => !(c == sep)) :: jsSplitTail sep l := by
  induction l with
  | nil => simp [jsSplit, jsSplitTail]
  | cons c rest ih =>
      by_cases h : c = sep
      · subst h
        simp [jsSplit, jsSplitTail, List.takeWhile_cons, List.dropWhile_cons]
      · simp only [jsSplit, if_neg h, ih]
        simp [List.takeWhile_cons, List.dropWhile_cons, h, jsSplitTail]

/-- Joining the groups of a split with the same separator restores the
original characters. -/
theorem jsJoin_jsSplit (sep : Char) (l : List Char) :
    jsJoin sep (jsSplit sep l) = l := by
  induction l with
  | nil => rfl
  | cons c rest ih =>
      cases hh : jsSplit sep rest with
      | nil => exact absurd hh (jsSplit_ne_nil sep rest)
      | cons g gs =>
          have h2 : jsJoin sep (g :: gs) = rest := by
            rw [← hh]; exact ih
          by_cases h : c = sep
          · simp only [jsSplit, if_pos h, hh]
            show [] ++ sep :: jsJoin sep (g :: gs) = c :: rest
            rw [h2, h]
            rfl
          · simp only [jsSplit, if_neg h, hh]
            cases gs with
            | nil =>
                show c :: g = c :: rest
                have hg : g = rest := h2
                rw [hg]
            | cons g₂ gs₂ =>
                show (c :: g) ++ sep :: jsJoin sep (g₂ :: gs₂) = c :: rest
                have hg : g ++ sep :: jsJoin sep (g₂ :: gs₂) = rest := h2
                rw [List.cons_append, hg]

/-- Joining the groups after the first one yields exactly the characters
after the first separator (and nothing when there is no separator). -/
theorem jsJoin_jsSplitTail (sep : Char) (l : List Char) :
    jsJoin sep (jsSplitTail sep l) = (l.dropWhile (fun c => !(c == sep))).tail := by
  cases hh : l.dropWhile (fun c => !(c == sep)) with
  | nil => simp [jsSplitTail, hh, jsJoin]
  | cons x r => simp [jsSplitTail, hh, jsJoin_jsSplit]

/-- Per-line behaviour of the `.env` parser: a blank line or a line
starting with `#` is dropped; any other line is split at its first `=`
(later `=` characters stay inside the value), and key and value are both
trimmed. -/
theorem parseEnvLine_eq (line : List Char) :
    parseEnvLine line =
      if jsTrim line = [] ∨ line.head? = some '#' then none
      else some (jsTrim (line.takeWhile (fun c => !(c == '='))),
                 jsTrim ((line.dropWhile (fun c => !(c == '='))).tail)) := by
  unfold parseEnvLine
  rw [jsSplit_eq_head_cons]
  by_cases h1 : jsTrim line = [] <;> by_cases h2 : line.head? = some '#' <;>
    simp [h1, h2, jsJoin_jsSplitTail]

/-- C10: the config loader keeps, of each line of the text, only the
non-blank lines whose first character is not `#`, splits each retained
line at its first `=` — so a value containing `=` survives the split
intact — and trims surrounding whitespace from both key and value. -/
theorem config_splits_each_line_at_first_equals (text : List Char) :
    loadConfig text =
      (jsSplit '\n' text).filterMap (fun line =>
        if jsTrim line = [] ∨ line.head? = some '#' then none
        else some (jsTrim (line.takeWhile (fun c => !(c == '='))),
                   jsTrim ((line.dropWhile (fun c => !(c == '='))).tail))) := by
  unfold loadConfig
  congr 1
  funext line
  exact parseEnvLine_eq line
